import Mathlib

/-!
Verification of the real-time messaging gateway of the haunted chat
platform, shallowly embedded from `src/server/socket.ts` (the socket.io
gateway) and the session validator in `src/lib/auth.ts`.

Modelling conventions:
* socket.io rooms (`server:${id}` and `channel:${id}` strings) are embedded
  as the inductive `Room`; a socket carries the list of rooms it has joined
  (`socket.join` is an idempotent add, `socket.leave` removes).
* each Prisma call that the handler awaits may throw; a Boolean fault flag
  per call site selects the catch branch, exactly where the try/catch of the
  handler would take over.  Everything executed before the failing call has
  already happened, as in the JavaScript source.
* every handler body runs atomically between awaits on a single-threaded
  event loop; a handler is embedded as one pure function from the store and
  the acting connection to the updated store/connection plus the list of
  emitted events.  Delivery of an emitted event is interpreted by
  `deliveredTo` against the connection registry.
* hydration sub-objects of Prisma `include` clauses (author display info,
  attachments, reaction authors) are not modelled; message and reaction rows
  carry their scalar columns, which is what the ordering, counting and
  authorization claims are about.
-/

namespace Haunted

/-- A row of the `User` table, the columns the gateway reads. -/
structure User where
  id : String
  username : String
  email : String
  isAnonymous : Bool
  anonymousId : Option String
  isAdmin : Bool
deriving DecidableEq, Repr

/-- `SocketUser` from `src/server/socket.ts` lines 6-12: the identity
attached to an authenticated socket. -/
structure SocketUser where
  userId : String
  username : String
  isAnonymous : Bool
  anonymousId : Option String
  isAdmin : Bool
deriving DecidableEq, Repr

/-- The display name resolved per outbound event
(`socket.user.isAnonymous ? socket.user.anonymousId : socket.user.username`). -/
def displayName (u : SocketUser) : Option String :=
  if u.isAnonymous then u.anonymousId else some u.username

/-- A row of the `Channel` table, the columns the gateway touches. -/
structure Channel where
  id : String
  serverId : String
  name : String
  chanType : String
  topic : Option String
  position : Nat
  updatedAt : Nat
deriving DecidableEq, Repr

/-- The projection of a channel sent in the `server-channels` reply
(select of `join-server`, `src/server/socket.ts` lines 97-107). -/
structure ChannelInfo where
  id : String
  name : String
  chanType : String
  topic : Option String
  position : Nat
deriving DecidableEq, Repr

/-- A row of the `Message` table.  Row ids are drawn from a counter. -/
structure Msg where
  id : Nat
  content : String
  msgType : String
  userId : String
  channelId : String
  createdAt : Nat
deriving DecidableEq, Repr

/-- A row of the `Reaction` table. -/
structure Reaction where
  id : Nat
  userId : String
  messageId : Nat
  emoji : String
deriving DecidableEq, Repr

/-- The identifying triple of a reaction row, ignoring the row id. -/
def reactionKey (r : Reaction) : String × Nat × String :=
  (r.userId, r.messageId, r.emoji)

/-- The persistence collaborator state: the tables the gateway queries and
mutates, plus fresh-id counters for rows the gateway creates. -/
structure DB where
  users : List User
  serverMembers : List (String × String)
  channels : List Channel
  messages : List Msg
  reactions : List Reaction
  nextMsgId : Nat
  nextReactionId : Nat
deriving DecidableEq, Repr

/-- A socket.io room tag: `server:${id}` or `channel:${id}`. -/
inductive Room where
  | server (sid : String)
  | channel (cid : String)
deriving DecidableEq, Repr

/-- One live connection: `AuthenticatedSocket` of `src/server/socket.ts`
(user, `currentServer`, `currentChannel`) together with the socket.io room
membership of that socket. -/
structure Conn where
  sockId : Nat
  user : SocketUser
  currentServer : Option String
  currentChannel : Option String
  rooms : List Room
deriving DecidableEq, Repr

/-- `socket.join`: add a room if not already joined. -/
def joinRoom (rooms : List Room) (r : Room) : List Room :=
  if r ∈ rooms then rooms else rooms ++ [r]

/-- `socket.leave`: remove a room. -/
def leaveRoom (rooms : List Room) (r : Room) : List Room :=
  rooms.filter (fun x => x ≠ r)

/-- Outbound events the gateway emits.  Events carrying a socket id go to
that one socket; events carrying a room are socket.io broadcasts
(`senderSock` is excluded for `socket.to`, included for `io.to`);
`reactionsUpdated` mirrors `io.emit`, reaching every connection. -/
inductive Out where
  | errorEv (sockId : Nat) (reason : String)
  | serverChannels (sockId : Nat) (chans : List ChannelInfo)
  | channelMessages (sockId : Nat) (msgs : List Msg)
  | userJoined (room : Room) (senderSock : Nat) (userId : String) (username : Option String)
  | newMessage (room : Room) (m : Msg)
  | userTyping (room : Room) (senderSock : Nat) (userId : String) (username : Option String)
  | userStopTyping (room : Room) (senderSock : Nat) (userId : String)
  | reactionsUpdated (messageId : Nat) (reactions : List Reaction)
  | userLeft (room : Room) (senderSock : Nat) (userId : String)
deriving DecidableEq, Repr

/-- An event that can reach connections other than one addressed socket. -/
def Out.isBroadcast : Out → Bool
  | .errorEv .. => false
  | .serverChannels .. => false
  | .channelMessages .. => false
  | _ => true

/-- An `error` event addressed to one socket. -/
def Out.isError : Out → Bool
  | .errorEv .. => true
  | _ => false

/-! ### Persistence collaborator queries, one per Prisma call site -/

/-- `prisma.serverMember.findFirst({ where: { userId, serverId } })`
interpreted as a membership test. -/
def isServerMember (db : DB) (userId serverId : String) : Bool :=
  db.serverMembers.any (fun m => m.1 == userId && m.2 == serverId)

/-- `prisma.channel.findMany({ where: { serverId }, orderBy: position asc })`
with the `join-server` select. -/
def listChannels (db : DB) (serverId : String) : List ChannelInfo :=
  ((db.channels.filter (fun c => c.serverId == serverId)).mergeSort
      (fun a b => a.position ≤ b.position)).map
    (fun c => ⟨c.id, c.name, c.chanType, c.topic, c.position⟩)

/-- `prisma.channel.findFirst({ where: { id: channelId, server: { members:
{ some: { userId } } } } })` interpreted as an access test: the channel
exists and its server has the user as a member. -/
def hasChannelAccess (db : DB) (userId channelId : String) : Bool :=
  db.channels.any (fun c => c.id == channelId && isServerMember db userId c.serverId)

/-- All message rows of one channel. -/
def channelMsgs (db : DB) (channelId : String) : List Msg :=
  db.messages.filter (fun m => m.channelId == channelId)

/-- `prisma.message.findMany({ where: { channelId }, orderBy: createdAt
desc, take: 50 })`: the newest-first page of at most 50 messages. -/
def listRecentMessages (db : DB) (channelId : String) : List Msg :=
  ((channelMsgs db channelId).mergeSort
      (fun a b => b.createdAt ≤ a.createdAt)).take 50

/-- `prisma.reaction.findFirst({ where: { userId, messageId, emoji } })`. -/
def findReaction (db : DB) (userId : String) (messageId : Nat) (emoji : String) :
    Option Reaction :=
  db.reactions.find?
    (fun r => r.userId == userId && r.messageId == messageId && r.emoji == emoji)

/-- `prisma.reaction.findMany({ where: { messageId } })`. -/
def listReactions (db : DB) (messageId : Nat) : List Reaction :=
  db.reactions.filter (fun r => r.messageId == messageId)

/-- `prisma.user.findUnique({ where: { id } })`. -/
def findUserById (db : DB) (uid : String) : Option User :=
  db.users.find? (fun u => u.id == uid)

/-- Whether server membership gives the user access to the channel holding
the message: the authorization predicate the spec asks of `add-reaction`. -/
def canAccessMessage (db : DB) (userId : String) (messageId : Nat) : Bool :=
  db.messages.any (fun m => m.id == messageId && hasChannelAccess db userId m.channelId)

/-! ### Event handlers, `src/server/socket.ts` -/

/-- The `join-server` handler (lines 78-114).  `memberCallFails` selects a
throw of the membership query, `chanCallFails` a throw of the channel-list
query; either lands in the catch, which emits `Failed to join server`.
Note that the scope mutation and the `server:` room join at lines 93-94
precede the channel-list query. -/
def joinServer (db : DB) (c : Conn) (serverId : String)
    (memberCallFails chanCallFails : Bool) : Conn × List Out :=
  if memberCallFails then
    (c, [Out.errorEv c.sockId "Failed to join server"])
  else if !(isServerMember db c.user.userId serverId) then
    (c, [Out.errorEv c.sockId "Not a member of this server"])
  else
    let c1 : Conn := { c with currentServer := some serverId,
                              rooms := joinRoom c.rooms (Room.server serverId) }
    if chanCallFails then
      (c1, [Out.errorEv c.sockId "Failed to join server"])
    else
      (c1, [Out.serverChannels c.sockId (listChannels db serverId)])

/-- The `join-channel` handler (lines 117-187).  `accessCallFails` selects a
throw of the access query, `msgsCallFails` a throw of the recent-messages
query.  The leave/assign/join of lines 139-144 runs with no await in
between, hence as one atomic block, and precedes the message query. -/
def joinChannel (db : DB) (c : Conn) (channelId : String)
    (accessCallFails msgsCallFails : Bool) : Conn × List Out :=
  if accessCallFails then
    (c, [Out.errorEv c.sockId "Failed to join channel"])
  else if !(hasChannelAccess db c.user.userId channelId) then
    (c, [Out.errorEv c.sockId "Channel not found or access denied"])
  else
    let rooms1 := match c.currentChannel with
      | some prev => leaveRoom c.rooms (Room.channel prev)
      | none => c.rooms
    let c1 : Conn := { c with currentChannel := some channelId,
                              rooms := joinRoom rooms1 (Room.channel channelId) }
    if msgsCallFails then
      (c1, [Out.errorEv c.sockId "Failed to join channel"])
    else
      (c1, [Out.channelMessages c.sockId (listRecentMessages db channelId).reverse,
            Out.userJoined (Room.channel channelId) c.sockId c.user.userId
              (displayName c.user)])

/-- `prisma.channel.update({ where: { id }, data: { updatedAt: new Date() } })`:
the last-activity touch. -/
def touchChannelActivity (db : DB) (channelId : String) (now : Nat) : DB :=
  { db with channels := db.channels.map (fun cc => if cc.id == channelId then { cc with updatedAt := now } else cc) }

/-- The `send-message` handler (lines 190-230).  `createFails` selects a
throw of `message.create`, `touchFails` a throw of the `channel.update`
activity touch; the broadcast at line 219 sits between the two calls. -/
def sendMessage (db : DB) (c : Conn) (content : String) (msgType : Option String)
    (now : Nat) (createFails touchFails : Bool) : DB × List Out :=
  match c.currentChannel with
  | none => (db, [Out.errorEv c.sockId "Not in a channel"])
  | some ch =>
    if createFails then
      (db, [Out.errorEv c.sockId "Failed to send message"])
    else
      let m : Msg := { id := db.nextMsgId, content := content,
                       msgType := msgType.getD "TEXT",
                       userId := c.user.userId, channelId := ch, createdAt := now }
      let db1 : DB := { db with messages := db.messages ++ [m],
                                nextMsgId := db.nextMsgId + 1 }
      if touchFails then
        (db1, [Out.newMessage (Room.channel ch) m,
               Out.errorEv c.sockId "Failed to send message"])
      else
        (touchChannelActivity db1 ch now, [Out.newMessage (Room.channel ch) m])

/-- The reaction toggle inside the `add-reaction` handler (lines 253-275):
find the row for the triple; delete it by row id when present, create a
fresh row when absent. -/
def toggleReaction (db : DB) (userId : String) (messageId : Nat) (emoji : String) : DB :=
  match findReaction db userId messageId emoji with
  | some r => { db with reactions := db.reactions.filter (fun x => x.id ≠ r.id) }
  | none =>
    { db with
      reactions := db.reactions ++
        [{ id := db.nextReactionId, userId := userId,
           messageId := messageId, emoji := emoji }],
      nextReactionId := db.nextReactionId + 1 }

/-- The `add-reaction` handler (lines 251-298).  `findOrMutFails` selects a
throw of the find or of the delete/create (either leaves the store
untouched, the mutation being a single Prisma call); `listFails` a throw of
the reaction re-query.  The broadcast is `io.emit`, platform-wide. -/
def addReaction (db : DB) (c : Conn) (messageId : Nat) (emoji : String)
    (findOrMutFails listFails : Bool) : DB × List Out :=
  if findOrMutFails then
    (db, [Out.errorEv c.sockId "Failed to add reaction"])
  else
    let db1 := toggleReaction db c.user.userId messageId emoji
    if listFails then
      (db1, [Out.errorEv c.sockId "Failed to add reaction"])
    else
      (db1, [Out.reactionsUpdated messageId (listReactions db1 messageId)])

/-- The `typing-start` handler (lines 233-240): silent no-op without a
current channel. -/
def typingStart (c : Conn) : List Out :=
  match c.currentChannel with
  | some ch => [Out.userTyping (Room.channel ch) c.sockId c.user.userId (displayName c.user)]
  | none => []

/-- The `typing-stop` handler (lines 242-248). -/
def typingStop (c : Conn) : List Out :=
  match c.currentChannel with
  | some ch => [Out.userStopTyping (Room.channel ch) c.sockId c.user.userId]
  | none => []

/-- The `disconnect` handler (lines 301-309). -/
def disconnectNotice (c : Conn) : List Out :=
  match c.currentChannel with
  | some ch => [Out.userLeft (Room.channel ch) c.sockId c.user.userId]
  | none => []

/-! ### Delivery semantics -/

/-- Socket ids of the connections currently subscribed to a room. -/
def subscribers (conns : List Conn) (room : Room) : List Nat :=
  (conns.filter (fun c => room ∈ c.rooms)).map (fun c => c.sockId)

/-- The socket ids an emitted event reaches, given the connection registry
at the moment of the emit.  `socket.emit` reaches the addressed socket,
`socket.to(room)` the other subscribers of the room, `io.to(room)` all
subscribers, and `io.emit` every connection. -/
def deliveredTo (conns : List Conn) (o : Out) : List Nat :=
  match o with
  | .errorEv s _ => [s]
  | .serverChannels s _ => [s]
  | .channelMessages s _ => [s]
  | .userJoined room sender _ _ => (subscribers conns room).filter (fun x => x ≠ sender)
  | .newMessage room _ => subscribers conns room
  | .userTyping room sender _ _ => (subscribers conns room).filter (fun x => x ≠ sender)
  | .userStopTyping room sender _ => (subscribers conns room).filter (fun x => x ≠ sender)
  | .reactionsUpdated _ _ => conns.map (fun c => c.sockId)
  | .userLeft room sender _ => (subscribers conns room).filter (fun x => x ≠ sender)

/-! ### Session validation and the authentication middleware -/

/-- A row of the `Session` table, `src/lib/auth.ts`. -/
structure Session where
  id : Nat
  token : String
  userId : String
  expiresAt : Nat
  lastUsed : Nat
deriving DecidableEq, Repr

/-- The payload `validateSession` returns on success. -/
structure JWTPayload where
  userId : String
  email : String
  username : String
  isAdmin : Bool
deriving DecidableEq, Repr

/-- The session-validator state: the set of tokens that pass `jwt.verify`
(signature and expiry of the token itself) and the `Session` table. -/
structure AuthState where
  jwtValid : List String
  sessions : List Session
deriving DecidableEq, Repr

/-- The `lastUsed` touch inside `validateSession`. -/
def touchLastUsed (a : AuthState) (sid : Nat) (now : Nat) : AuthState :=
  { a with sessions := a.sessions.map (fun x => if x.id == sid then { x with lastUsed := now } else x) }

/-- `validateSession` from `src/lib/auth.ts` lines 74-109: verify the JWT
(a throw is caught and yields none), look the session row up by token with
its user included (a missing user row throws, caught to none), delete an
expired row and return none, else touch `lastUsed` and return the payload
built from the included user. -/
def validateSession (a : AuthState) (db : DB) (now : Nat) (token : String) :
    Option JWTPayload × AuthState :=
  if !(a.jwtValid.contains token) then (none, a)
  else
    match a.sessions.find? (fun s => s.token == token) with
    | none => (none, a)
    | some s =>
      match findUserById db s.userId with
      | none => (none, a)
      | some u =>
        if s.expiresAt < now then
          (none, { a with sessions := a.sessions.filter (fun x => x.id ≠ s.id) })
        else
          (some { userId := u.id, email := u.email, username := u.username,
                  isAdmin := u.isAdmin },
           touchLastUsed a s.id now)

/-- Result of the authentication middleware. -/
inductive AuthResult where
  | rejected (reason : String)
  | admitted (u : SocketUser)
deriving DecidableEq, Repr

/-- The socket.io authentication middleware (`src/server/socket.ts` lines
38-72).  `dbAtLookup` is the store snapshot seen by the full-user query,
which runs after the awaits inside `validateSession` and may observe
interleaved mutation (for example the identity row deleted meanwhile). -/
def authMiddleware (a : AuthState) (db dbAtLookup : DB) (now : Nat)
    (token : Option String) : AuthResult × AuthState :=
  match token with
  | none => (AuthResult.rejected "Authentication error", a)
  | some t =>
    match validateSession a db now t with
    | (none, a1) => (AuthResult.rejected "Invalid session", a1)
    | (some p, a1) =>
      match findUserById dbAtLookup p.userId with
      | none => (AuthResult.rejected "User not found", a1)
      | some u =>
        (AuthResult.admitted { userId := u.id, username := u.username,
                               isAnonymous := u.isAnonymous,
                               anonymousId := u.anonymousId, isAdmin := u.isAdmin }, a1)

/-- A connection attempt: only an admitted handshake produces a `Conn`, with
empty scope, no current channel and no joined rooms. -/
def connect (a : AuthState) (db dbAtLookup : DB) (now : Nat) (sockId : Nat)
    (token : Option String) : Option Conn × AuthState :=
  match authMiddleware a db dbAtLookup now token with
  | (AuthResult.rejected _, a1) => (none, a1)
  | (AuthResult.admitted u, a1) =>
    (some { sockId := sockId, user := u, currentServer := none,
            currentChannel := none, rooms := [] }, a1)

/-! ### Invariants -/

/-- The channel rooms among a room list. -/
def channelRooms (rooms : List Room) : List Room :=
  rooms.filter (fun r => match r with | Room.channel _ => true | _ => false)

/-- A connection subscribes to exactly the channel room of its
`currentChannel`, and to no channel room when that is unset. -/
def ConnInv (c : Conn) : Prop :=
  channelRooms c.rooms =
    match c.currentChannel with
    | some ch => [Room.channel ch]
    | none => []

instance (c : Conn) : Decidable (ConnInv c) := by
  unfold ConnInv; infer_instance

/-- Well-formedness of the reaction table: row ids below the counter,
row ids pairwise distinct, and at most one row per
(user, message, emoji) triple. -/
def ReactInv (db : DB) : Prop :=
  (∀ r ∈ db.reactions, r.id < db.nextReactionId) ∧
  db.reactions.Pairwise (fun a b => a.id ≠ b.id) ∧
  db.reactions.Pairwise (fun a b => reactionKey a ≠ reactionKey b)

instance (db : DB) : Decidable (ReactInv db) := by
  unfold ReactInv; infer_instance

/-! ### Concrete fixtures used by witnesses and counterexamples -/

/-- A registered, non-anonymous user. -/
def uAlice : User :=
  { id := "u1", username := "alice", email := "alice@x", isAnonymous := false,
    anonymousId := none, isAdmin := false }

/-- A second registered user. -/
def uBob : User :=
  { id := "u2", username := "bob", email := "bob@x", isAnonymous := false,
    anonymousId := none, isAdmin := false }

/-- Alice as a socket identity. -/
def suAlice : SocketUser :=
  { userId := "u1", username := "alice", isAnonymous := false,
    anonymousId := none, isAdmin := false }

/-- Bob as a socket identity. -/
def suBob : SocketUser :=
  { userId := "u2", username := "bob", isAnonymous := false,
    anonymousId := none, isAdmin := false }

/-- A small store: server s1 (channels c1, c2) with members u1 and u2, and
server s2 (channel c3) with member u2 only; message 9 lives in c3. -/
def exDb : DB :=
  { users := [uAlice, uBob],
    serverMembers := [("u1", "s1"), ("u2", "s1"), ("u2", "s2")],
    channels :=
      [{ id := "c1", serverId := "s1", name := "general", chanType := "TEXT",
         topic := none, position := 0, updatedAt := 0 },
       { id := "c2", serverId := "s1", name := "random", chanType := "TEXT",
         topic := none, position := 1, updatedAt := 0 },
       { id := "c3", serverId := "s2", name := "private", chanType := "TEXT",
         topic := none, position := 0, updatedAt := 0 }],
    messages :=
      [{ id := 1, content := "m1", msgType := "TEXT", userId := "u2",
         channelId := "c1", createdAt := 10 },
       { id := 2, content := "m2", msgType := "TEXT", userId := "u2",
         channelId := "c1", createdAt := 20 },
       { id := 9, content := "secret", msgType := "TEXT", userId := "u2",
         channelId := "c3", createdAt := 30 }],
    reactions := [],
    nextMsgId := 100, nextReactionId := 50 }

/-- Alice freshly connected: no scope, no channel, no rooms. -/
def connAlice : Conn :=
  { sockId := 1, user := suAlice, currentServer := none,
    currentChannel := none, rooms := [] }

/-- Alice scoped to s1 and subscribed to channel c1. -/
def connAliceInC1 : Conn :=
  { sockId := 1, user := suAlice, currentServer := some "s1",
    currentChannel := some "c1", rooms := [Room.server "s1", Room.channel "c1"] }

/-- Bob subscribed to channel c1. -/
def connBobInC1 : Conn :=
  { sockId := 2, user := suBob, currentServer := some "s1",
    currentChannel := some "c1", rooms := [Room.channel "c1"] }

/-- Bob subscribed to channel c3. -/
def connBobInC3 : Conn :=
  { sockId := 3, user := suBob, currentServer := some "s2",
    currentChannel := some "c3", rooms := [Room.channel "c3"] }

/-- A validator state holding one live session for u1 under token tok1. -/
def exAuth : AuthState :=
  { jwtValid := ["tok1", "tokOld"],
    sessions :=
      [{ id := 1, token := "tok1", userId := "u1", expiresAt := 100, lastUsed := 0 },
       { id := 2, token := "tokOld", userId := "u1", expiresAt := 3, lastUsed := 0 }] }

/-- The store with every user row deleted, as the snapshot of a later query. -/
def exDbNoUsers : DB := { exDb with users := [] }

/-- Rows with the reaction triple of one message, counted. -/
def countTriple (db : DB) (u : String) (mid : Nat) (e : String) : Nat :=
  (db.reactions.filter (fun x => reactionKey x = (u, mid, e))).length

/-- The reaction triples currently attached to one message. -/
def reactionKeysFor (db : DB) (mid : Nat) : List (String × Nat × String) :=
  (listReactions db mid).map reactionKey

/-- The row the toggle creates when no row for the triple exists. -/
def freshReaction (db : DB) (u : String) (mid : Nat) (e : String) : Reaction :=
  { id := db.nextReactionId, userId := u, messageId := mid, emoji := e }

/-- A store carrying one existing reaction row, for the toggle witness. -/
def exDbR : DB :=
  { exDb with reactions := [{ id := 7, userId := "u2", messageId := 1, emoji := "fire" }],
              nextReactionId := 8 }

/-! ### Claims -/

/-- C5: a send-message request from a connection whose current room is unset
is answered by the error "Not in a channel" to the sender, the store is
unchanged (no message record created), and nothing is broadcast: the one
emitted event reaches exactly the sender. -/
theorem c5_send_without_room (db : DB) (c : Conn) (conns : List Conn)
    (content : String) (ty : Option String) (now : Nat) (cf tf : Bool)
    (h : c.currentChannel = none) :
    sendMessage db c content ty now cf tf =
      (db, [Out.errorEv c.sockId "Not in a channel"]) ∧
    deliveredTo conns (Out.errorEv c.sockId "Not in a channel") = [c.sockId] ∧
    (∀ o ∈ (sendMessage db c content ty now cf tf).2, o.isBroadcast = false) := by
  unfold sendMessage
  rw [h]
  refine ⟨rfl, rfl, ?_⟩
  intro o ho
  simp only [List.mem_singleton] at ho
  subst ho
  rfl

/-- C5 witness: the concrete freshly-connected Alice hits the error path. -/
theorem c5_send_without_room_witness :
    sendMessage exDb connAlice "hi" none 5 false false =
      (exDb, [Out.errorEv 1 "Not in a channel"]) ∧
    deliveredTo [connAlice, connBobInC1] (Out.errorEv 1 "Not in a channel") = [1] ∧
    (∀ o ∈ (sendMessage exDb connAlice "hi" none 5 false false).2, o.isBroadcast = false) :=
  c5_send_without_room exDb connAlice [connAlice, connBobInC1] "hi" none 5 false false rfl

/-- C8: a missing credential is rejected with "Authentication error", a
credential the validator cannot turn into an identity with "Invalid
session", and a validated credential whose identity row is gone at the
follow-up lookup with "User not found"; in all three cases the handshake
produces no connection object. -/
theorem c8_auth_rejection (a : AuthState) (db db2 : DB) (now sockId : Nat)
    (token : Option String) :
    (token = none →
      authMiddleware a db db2 now token = (AuthResult.rejected "Authentication error", a) ∧
      (connect a db db2 now sockId token).1 = none) ∧
    (∀ t, token = some t → (validateSession a db now t).1 = none →
      (authMiddleware a db db2 now token).1 = AuthResult.rejected "Invalid session" ∧
      (connect a db db2 now sockId token).1 = none) ∧
    (∀ t p, token = some t → (validateSession a db now t).1 = some p →
      findUserById db2 p.userId = none →
      (authMiddleware a db db2 now token).1 = AuthResult.rejected "User not found" ∧
      (connect a db db2 now sockId token).1 = none) := by
  refine ⟨?_, ?_, ?_⟩
  · intro h
    subst h
    exact ⟨rfl, rfl⟩
  · intro t ht hv
    subst ht
    unfold connect authMiddleware
    rcases hveq : validateSession a db now t with ⟨r, a1⟩
    rw [hveq] at hv
    simp only at hv
    subst hv
    simp only [hveq]
    exact ⟨trivial, trivial⟩
  · intro t p ht hv hu
    subst ht
    unfold connect authMiddleware
    rcases hveq : validateSession a db now t with ⟨r, a1⟩
    rw [hveq] at hv
    simp only at hv
    subst hv
    simp only [hveq, hu]
    exact ⟨trivial, trivial⟩

/-- C8 witness: a missing token, a token that fails verification, and a
valid token whose user row is deleted before the follow-up lookup, each
rejected with its reason string and no connection created. -/
theorem c8_auth_rejection_witness :
    (authMiddleware exAuth exDb exDb 5 none =
        (AuthResult.rejected "Authentication error", exAuth) ∧
      (connect exAuth exDb exDb 5 7 none).1 = none) ∧
    ((authMiddleware exAuth exDb exDb 5 (some "badtok")).1 =
        AuthResult.rejected "Invalid session" ∧
      (connect exAuth exDb exDb 5 7 (some "badtok")).1 = none) ∧
    ((authMiddleware exAuth exDb exDbNoUsers 5 (some "tok1")).1 =
        AuthResult.rejected "User not found" ∧
      (connect exAuth exDb exDbNoUsers 5 7 (some "tok1")).1 = none) := by
  refine ⟨(c8_auth_rejection exAuth exDb exDb 5 7 none).1 rfl, ?_, ?_⟩
  · exact (c8_auth_rejection exAuth exDb exDb 5 7 (some "badtok")).2.1 "badtok" rfl
      (by decide)
  · exact (c8_auth_rejection exAuth exDb exDbNoUsers 5 7 (some "tok1")).2.2 "tok1"
      { userId := "u1", email := "alice@x", username := "alice", isAdmin := false }
      rfl (by decide) (by decide)

/-- C3 counterexample: Alice is a member of s1, the membership check
succeeds, and the channel-list query then errors; the request fails (only a
generic error is emitted back) yet the scope has moved from none to s1, so
the failed join-server was partially applied. -/
theorem c3_counterexample :
    (joinServer exDb connAlice "s1" false true).2 =
      [Out.errorEv 1 "Failed to join server"] ∧
    connAlice.currentServer = none ∧
    (joinServer exDb connAlice "s1" false true).1.currentServer = some "s1" := by
  decide

/-- C3 amended: a join-server whose membership step fails (the identity is
not a member, or the membership query itself errors) leaves the scope and
the whole connection unchanged, with a single error event to the requester;
a channel-list error after a successful membership check also emits only a
single error event to the requester and broadcasts nothing, but at that
point the scope has already been set to the requested server (and the
server room joined).  Error events always reach exactly the requester. -/
theorem c3_join_server_failure (db : DB) (c : Conn) (conns : List Conn)
    (sid : String) (cf : Bool) :
    (joinServer db c sid true cf = (c, [Out.errorEv c.sockId "Failed to join server"])) ∧
    (isServerMember db c.user.userId sid = false →
      joinServer db c sid false cf =
        (c, [Out.errorEv c.sockId "Not a member of this server"])) ∧
    (isServerMember db c.user.userId sid = true →
      joinServer db c sid false true =
        ({ c with currentServer := some sid,
                  rooms := joinRoom c.rooms (Room.server sid) },
         [Out.errorEv c.sockId "Failed to join server"])) ∧
    (∀ r, deliveredTo conns (Out.errorEv c.sockId r) = [c.sockId]) := by
  refine ⟨rfl, ?_, ?_, fun r => rfl⟩
  · intro h
    unfold joinServer
    rw [h]
    rfl
  · intro h
    unfold joinServer
    rw [h]
    rfl

/-- C3 amended witness: a non-member join of s2 leaves Alice unchanged, and
a channel-list error after a member join of s1 has already set her scope. -/
theorem c3_join_server_failure_witness :
    (joinServer exDb connAlice "s2" false false =
      (connAlice, [Out.errorEv 1 "Not a member of this server"])) ∧
    (joinServer exDb connAlice "s1" false true =
      ({ connAlice with currentServer := some "s1",
                        rooms := joinRoom connAlice.rooms (Room.server "s1") },
       [Out.errorEv 1 "Failed to join server"])) ∧
    deliveredTo [connAlice, connBobInC1] (Out.errorEv 1 "Failed to join server") = [1] :=
  ⟨(c3_join_server_failure exDb connAlice [connAlice, connBobInC1] "s2" false).2.1
      (by decide),
   (c3_join_server_failure exDb connAlice [connAlice, connBobInC1] "s1" false).2.2.1
      (by decide),
   (c3_join_server_failure exDb connAlice [connAlice, connBobInC1] "s1" false).2.2.2
      "Failed to join server"⟩

/-- C6 counterexample: Alice sits in c1 and asks to join c2, to which she
has access; the recent-messages query then errors.  The request fails (one
generic error back to her, no user-joined broadcast) yet her current room
has moved from c1 to c2, so the failed join-channel was partially applied. -/
theorem c6_counterexample :
    (joinChannel exDb connAliceInC1 "c2" false true).2 =
      [Out.errorEv 1 "Failed to join channel"] ∧
    connAliceInC1.currentChannel = some "c1" ∧
    (joinChannel exDb connAliceInC1 "c2" false true).1.currentChannel = some "c2" := by
  decide

/-- C6 amended: a join-channel that fails its access step (channel missing
or no access, or the access query itself errors) leaves the connection
unchanged, with a single error event to the requester; a recent-messages
error after a successful access check also emits only a single error event
to the requester and broadcasts no user-joined notice, but at that point
the room transition has already happened (current room set to the new
channel, old channel room left, new channel room joined). -/
theorem c6_join_channel_failure (db : DB) (c : Conn) (conns : List Conn)
    (cid : String) (mf : Bool) :
    (joinChannel db c cid true mf = (c, [Out.errorEv c.sockId "Failed to join channel"])) ∧
    (hasChannelAccess db c.user.userId cid = false →
      joinChannel db c cid false mf =
        (c, [Out.errorEv c.sockId "Channel not found or access denied"])) ∧
    (hasChannelAccess db c.user.userId cid = true →
      joinChannel db c cid false true =
        ({ c with currentChannel := some cid,
                  rooms := joinRoom
                    (match c.currentChannel with
                     | some prev => leaveRoom c.rooms (Room.channel prev)
                     | none => c.rooms) (Room.channel cid) },
         [Out.errorEv c.sockId "Failed to join channel"])) ∧
    (∀ r, deliveredTo conns (Out.errorEv c.sockId r) = [c.sockId]) := by
  refine ⟨rfl, ?_, ?_, fun r => rfl⟩
  · intro h
    unfold joinChannel
    rw [h]
    rfl
  · intro h
    unfold joinChannel
    rw [h]
    rfl

/-- C6 amended witness: Alice in c1 denied on c3 (no access) is unchanged,
and a recent-messages error on c2 after the access check has already moved
her room. -/
theorem c6_join_channel_failure_witness :
    (joinChannel exDb connAliceInC1 "c3" false false =
      (connAliceInC1, [Out.errorEv 1 "Channel not found or access denied"])) ∧
    (joinChannel exDb connAliceInC1 "c2" false true =
      ({ connAliceInC1 with currentChannel := some "c2",
                            rooms := joinRoom
                              (leaveRoom connAliceInC1.rooms (Room.channel "c1"))
                              (Room.channel "c2") },
       [Out.errorEv 1 "Failed to join channel"])) :=
  ⟨(c6_join_channel_failure exDb connAliceInC1 [connAliceInC1] "c3" false).2.1
      (by decide),
   (c6_join_channel_failure exDb connAliceInC1 [connAliceInC1] "c2" false).2.2.1
      (by decide)⟩

/-- C1 counterexample: Alice is no member of server s2, so she has no
access to channel c3 and in particular none to message 9 that lives there;
her add-reaction request on message 9 nevertheless mutates the store and
broadcasts the updated reaction list. -/
theorem c1_counterexample :
    canAccessMessage exDb "u1" 9 = false ∧
    (addReaction exDb connAliceInC1 9 "x" false false).1 ≠ exDb ∧
    ∃ o ∈ (addReaction exDb connAliceInC1 9 "x" false false).2, o.isBroadcast = true := by
  decide

/-- C1 amended: membership-based authorization gates join-server (effect
only for members) and join-channel (effect only with channel access), but
add-reaction is not authorized at all: its outcome depends only on the
reaction table (two stores agreeing on reactions and the reaction counter
produce identical emissions and identical resulting reaction tables,
whatever their memberships), and on the success path the toggle is applied
and the updated list broadcast unconditionally. -/
theorem c1_event_authorization (db db1 db2 : DB) (c : Conn) (sid cid : String)
    (mid : Nat) (e : String) (f g : Bool)
    (hr : db1.reactions = db2.reactions)
    (hn : db1.nextReactionId = db2.nextReactionId) :
    (isServerMember db c.user.userId sid = false →
      joinServer db c sid false false =
        (c, [Out.errorEv c.sockId "Not a member of this server"])) ∧
    (hasChannelAccess db c.user.userId cid = false →
      joinChannel db c cid false false =
        (c, [Out.errorEv c.sockId "Channel not found or access denied"])) ∧
    ((addReaction db1 c mid e f g).2 = (addReaction db2 c mid e f g).2 ∧
      (addReaction db1 c mid e f g).1.reactions = (addReaction db2 c mid e f g).1.reactions) ∧
    (addReaction db c mid e false false =
      (toggleReaction db c.user.userId mid e,
       [Out.reactionsUpdated mid
          (listReactions (toggleReaction db c.user.userId mid e) mid)])) := by
  have hfind : findReaction db1 c.user.userId mid e = findReaction db2 c.user.userId mid e := by
    unfold findReaction
    rw [hr]
  have htog : (toggleReaction db1 c.user.userId mid e).reactions =
      (toggleReaction db2 c.user.userId mid e).reactions := by
    unfold toggleReaction
    rw [hfind]
    cases findReaction db2 c.user.userId mid e with
    | none => simp only; rw [hr, hn]
    | some r => simp only; rw [hr]
  refine ⟨?_, ?_, ?_, rfl⟩
  · intro h
    unfold joinServer
    rw [h]
    rfl
  · intro h
    unfold joinChannel
    rw [h]
    rfl
  · cases f with
    | true => exact ⟨rfl, hr⟩
    | false =>
      cases g with
      | true =>
        refine ⟨rfl, ?_⟩
        simp only [addReaction, Bool.false_eq_true, if_false, if_true]
        exact htog
      | false =>
        have hlist : listReactions (toggleReaction db1 c.user.userId mid e) mid =
            listReactions (toggleReaction db2 c.user.userId mid e) mid := by
          unfold listReactions
          rw [htog]
        constructor
        · simp only [addReaction, Bool.false_eq_true, if_false, hlist]
        · simp only [addReaction, Bool.false_eq_true, if_false]
          exact htog

/-- C1 amended witness: Alice is denied joining server s2 and channel c3,
while her unauthorized reaction on message 9 goes through identically on a
store whose membership table is emptied. -/
theorem c1_event_authorization_witness :
    (joinServer exDb connAliceInC1 "s2" false false =
      (connAliceInC1, [Out.errorEv 1 "Not a member of this server"])) ∧
    (joinChannel exDb connAliceInC1 "c3" false false =
      (connAliceInC1, [Out.errorEv 1 "Channel not found or access denied"])) ∧
    ((addReaction { exDb with serverMembers := [] } connAliceInC1 9 "x" false false).2 =
      (addReaction exDb connAliceInC1 9 "x" false false).2) := by
  have h := c1_event_authorization exDb { exDb with serverMembers := [] } exDb
    connAliceInC1 "s2" "c3" 9 "x" false false rfl rfl
  exact ⟨h.1 (by decide), h.2.1 (by decide), h.2.2.1.1⟩

/-- Channel rooms distribute over list append. -/
theorem channelRooms_append (l1 l2 : List Room) :
    channelRooms (l1 ++ l2) = channelRooms l1 ++ channelRooms l2 :=
  List.filter_append _ _

/-- Leaving a room commutes with restricting to channel rooms. -/
theorem channelRooms_leave (l : List Room) (r : Room) :
    channelRooms (leaveRoom l r) = (channelRooms l).filter (fun x => x ≠ r) := by
  unfold channelRooms leaveRoom
  exact List.filter_comm _ _ l

/-- Joining a server room adds no channel room. -/
theorem channelRooms_joinServerRoom (l : List Room) (sid : String) :
    channelRooms (joinRoom l (Room.server sid)) = channelRooms l := by
  unfold joinRoom
  split
  · rfl
  · rw [channelRooms_append]
    simp [channelRooms]

/-- A room list with no channel rooms does not contain a channel room. -/
theorem not_mem_of_channelRooms_nil (l : List Room) (cid : String)
    (h : channelRooms l = []) : Room.channel cid ∉ l := by
  intro hmem
  have : Room.channel cid ∈ channelRooms l := by
    unfold channelRooms
    exact List.mem_filter.mpr ⟨hmem, rfl⟩
  rw [h] at this
  exact absurd this (List.not_mem_nil _)

/-- The connection after join-server is either untouched or has only its
scope set and the server room joined. -/
theorem joinServer_conn_cases (db : DB) (c : Conn) (sid : String) (f1 f2 : Bool) :
    (joinServer db c sid f1 f2).1 = c ∨
    (joinServer db c sid f1 f2).1 =
      { c with currentServer := some sid,
               rooms := joinRoom c.rooms (Room.server sid) } := by
  unfold joinServer
  split
  · exact Or.inl rfl
  · split
    · exact Or.inl rfl
    · split
      · exact Or.inr rfl
      · exact Or.inr rfl

/-- The room transition a join-channel performs once its access check has
passed: leave the old channel room, set the current channel, join the new
channel room, whatever the later message query does. -/
theorem joinChannel_conn_success (db : DB) (c : Conn) (cid : String) (f2 : Bool)
    (hacc : hasChannelAccess db c.user.userId cid = true) :
    (joinChannel db c cid false f2).1 =
      { c with currentChannel := some cid,
               rooms := joinRoom
                 (match c.currentChannel with
                  | some prev => leaveRoom c.rooms (Room.channel prev)
                  | none => c.rooms) (Room.channel cid) } := by
  unfold joinChannel
  simp only [Bool.false_eq_true, if_false, hacc, Bool.not_true]
  split
  · rfl
  · rfl

/-- The connection after join-channel is either untouched or has performed
the full room transition to the requested channel. -/
theorem joinChannel_conn_cases (db : DB) (c : Conn) (cid : String) (f1 f2 : Bool) :
    (joinChannel db c cid f1 f2).1 = c ∨
    (joinChannel db c cid f1 f2).1 =
      { c with currentChannel := some cid,
               rooms := joinRoom
                 (match c.currentChannel with
                  | some prev => leaveRoom c.rooms (Room.channel prev)
                  | none => c.rooms) (Room.channel cid) } := by
  unfold joinChannel
  split
  · exact Or.inl rfl
  · split
    · exact Or.inl rfl
    · split <;> split <;> exact Or.inr rfl

/-- Under the single-room invariant, the room list after the leave step of
a join-channel holds no channel room at all. -/
theorem channelRooms_after_leave (c : Conn) (h : ConnInv c) :
    channelRooms (match c.currentChannel with
      | some prev => leaveRoom c.rooms (Room.channel prev)
      | none => c.rooms) = [] := by
  unfold ConnInv at h
  cases hcc : c.currentChannel with
  | none =>
    rw [hcc] at h
    simpa using h
  | some prev =>
    rw [hcc] at h
    simp only
    rw [channelRooms_leave, h]
    simp

/-- C9: each connection subscribes to at most one channel room.  The
invariant tying the channel-room set to the current-channel field is
preserved by join-server and by join-channel along every path (the other
handlers never touch a connection), and a join-channel that passes its
access check leaves the connection subscribed to exactly the one channel
room of the requested channel.  Both room moves of the transition happen
inside the same handler step, so no intermediate membership is observable
by any broadcast. -/
theorem c9_single_room (db : DB) (c : Conn) (sid cid : String) (f1 f2 : Bool)
    (h : ConnInv c) :
    ConnInv (joinServer db c sid f1 f2).1 ∧
    ConnInv (joinChannel db c cid f1 f2).1 ∧
    (hasChannelAccess db c.user.userId cid = true →
      channelRooms (joinChannel db c cid false f2).1.rooms = [Room.channel cid] ∧
      (joinChannel db c cid false f2).1.currentChannel = some cid) := by
  have hup : ∀ rooms1, channelRooms rooms1 = [] →
      channelRooms (joinRoom rooms1 (Room.channel cid)) = [Room.channel cid] := by
    intro rooms1 h1
    have hnm := not_mem_of_channelRooms_nil rooms1 cid h1
    unfold joinRoom
    rw [if_neg hnm, channelRooms_append, h1]
    rfl
  have hinvUpd : ConnInv
      { c with currentChannel := some cid,
               rooms := joinRoom
                 (match c.currentChannel with
                  | some prev => leaveRoom c.rooms (Room.channel prev)
                  | none => c.rooms) (Room.channel cid) } := by
    unfold ConnInv
    simp only
    exact hup _ (channelRooms_after_leave c h)
  refine ⟨?_, ?_, ?_⟩
  · rcases joinServer_conn_cases db c sid f1 f2 with hc | hc
    · rw [hc]
      exact h
    · rw [hc]
      unfold ConnInv at h ⊢
      simp only
      rw [channelRooms_joinServerRoom]
      exact h
  · rcases joinChannel_conn_cases db c cid f1 f2 with hc | hc
    · rw [hc]
      exact h
    · rw [hc]
      exact hinvUpd
  · intro hacc
    rw [joinChannel_conn_success db c cid f2 hacc]
    exact ⟨hup _ (channelRooms_after_leave c h), rfl⟩

/-- C9 witness: Alice, subscribed to exactly channel c1, joins channel c2
and ends subscribed to exactly channel c2. -/
theorem c9_single_room_witness :
    ConnInv connAliceInC1 ∧
    channelRooms (joinChannel exDb connAliceInC1 "c2" false false).1.rooms =
      [Room.channel "c2"] ∧
    (joinChannel exDb connAliceInC1 "c2" false false).1.currentChannel = some "c2" :=
  ⟨by decide,
   (c9_single_room exDb connAliceInC1 "s1" "c2" false false (by decide)).2.2 (by decide)⟩

/-- Joining a server room neither adds nor removes a channel room. -/
theorem mem_channel_joinRoom_server (rooms : List Room) (sid cid : String) :
    Room.channel cid ∈ joinRoom rooms (Room.server sid) ↔ Room.channel cid ∈ rooms := by
  unfold joinRoom
  split
  · exact Iff.rfl
  · simp

/-- Channel-room subscriber sets are unchanged when every connection also
joins a server room. -/
theorem subscribers_after_server_join (conns : List Conn) (sid cid : String) :
    subscribers
      (conns.map (fun cc => { cc with rooms := joinRoom cc.rooms (Room.server sid) }))
      (Room.channel cid) = subscribers conns (Room.channel cid) := by
  unfold subscribers
  induction conns with
  | nil => rfl
  | cons a t ih =>
    simp only [List.map_cons, List.filter_cons]
    by_cases h : Room.channel cid ∈ a.rooms
    · have h2 : Room.channel cid ∈ joinRoom a.rooms (Room.server sid) :=
        (mem_channel_joinRoom_server a.rooms sid cid).mpr h
      simp only [h, h2, decide_eq_true_eq, if_true, List.map_cons]
      rw [ih]
    · have h2 : Room.channel cid ∉ joinRoom a.rooms (Room.server sid) := by
        intro hmem
        exact h ((mem_channel_joinRoom_server a.rooms sid cid).mp hmem)
      simp only [h, h2, decide_eq_true_eq, if_false]
      exact ih

/-- Socket ids are untouched when every connection joins a server room. -/
theorem sockIds_after_server_join (conns : List Conn) (sid : String) :
    (conns.map (fun cc => { cc with rooms := joinRoom cc.rooms (Room.server sid) })).map
        (fun cc => cc.sockId) =
      conns.map (fun cc => cc.sockId) := by
  induction conns with
  | nil => rfl
  | cons a t ih =>
    simp only [List.map_cons]
    rw [ih]

/-- C10: no handler reads the server scope.  Join-channel, send-message,
add-reaction and the typing notices behave identically whatever
`currentServer` holds (including none); a member join-server does nothing
but set the scope, join the server room and reply with the channel list;
and joining a server room changes neither any channel-room subscriber set
nor the platform-wide recipient set, so the channel list reply is the only
effect of join-server observable in later behavior. -/
theorem c10_scope_not_read (db : DB) (c : Conn) (conns : List Conn)
    (s : Option String) (cid sid content : String) (ty : Option String)
    (now mid : Nat) (e : String) (f1 f2 cf tf : Bool) :
    (joinChannel db { c with currentServer := s } cid f1 f2 =
      ({ (joinChannel db c cid f1 f2).1 with currentServer := s },
       (joinChannel db c cid f1 f2).2)) ∧
    (sendMessage db { c with currentServer := s } content ty now cf tf =
      sendMessage db c content ty now cf tf) ∧
    (addReaction db { c with currentServer := s } mid e f1 f2 =
      addReaction db c mid e f1 f2) ∧
    (typingStart { c with currentServer := s } = typingStart c) ∧
    (typingStop { c with currentServer := s } = typingStop c) ∧
    (isServerMember db c.user.userId sid = true →
      joinServer db c sid false false =
        ({ c with currentServer := some sid,
                  rooms := joinRoom c.rooms (Room.server sid) },
         [Out.serverChannels c.sockId (listChannels db sid)])) ∧
    (subscribers
        (conns.map (fun cc => { cc with rooms := joinRoom cc.rooms (Room.server sid) }))
        (Room.channel cid) = subscribers conns (Room.channel cid)) ∧
    ((conns.map (fun cc => { cc with rooms := joinRoom cc.rooms (Room.server sid) })).map
        (fun cc => cc.sockId) = conns.map (fun cc => cc.sockId)) := by
  refine ⟨?_, ?_, ?_, ?_, ?_, ?_,
    subscribers_after_server_join conns sid cid, sockIds_after_server_join conns sid⟩
  · cases f1 <;> cases f2 <;> cases hcc : c.currentChannel <;>
      by_cases hacc : hasChannelAccess db c.user.userId cid <;>
      simp [joinChannel, hcc, hacc]
  · cases hcc : c.currentChannel <;> cases cf <;> cases tf <;>
      simp [sendMessage, hcc]
  · cases f1 <;> cases f2 <;> simp [addReaction]
  · cases hcc : c.currentChannel <;> simp [typingStart, hcc]
  · cases hcc : c.currentChannel <;> simp [typingStop, hcc]
  · intro hm
    simp [joinServer, hm]

/-- C10 witness: Alice with no scope set joins channel c2 and sends a
message there exactly as she would with a scope, and a concrete server join
only sets scope, joins the server room and returns the channel list. -/
theorem c10_scope_not_read_witness :
    (joinChannel exDb { connAliceInC1 with currentServer := none } "c2" false false =
      ({ (joinChannel exDb connAliceInC1 "c2" false false).1 with currentServer := none },
       (joinChannel exDb connAliceInC1 "c2" false false).2)) ∧
    (sendMessage exDb { connAliceInC1 with currentServer := none } "hi" none 7 false false =
      sendMessage exDb connAliceInC1 "hi" none 7 false false) ∧
    (joinServer exDb connAlice "s1" false false =
      ({ connAlice with currentServer := some "s1",
                        rooms := joinRoom connAlice.rooms (Room.server "s1") },
       [Out.serverChannels 1 (listChannels exDb "s1")])) := by
  have h := c10_scope_not_read exDb connAliceInC1 [connAliceInC1] none "c2" "s1" "hi"
    none 7 0 "x" false false false false
  have h2 := c10_scope_not_read exDb connAlice [connAlice] none "c2" "s1" "hi"
    none 7 0 "x" false false false false
  exact ⟨h.1, h.2.1, h2.2.2.2.2.2.1 (by decide)⟩

/-- C4: with a current room set, send-message first persists (the created
row is in the resulting store), and the single new-message broadcast that
follows reaches exactly the subscribers of that room in the registry at
that step, the sender among them whenever it is registered in the room; a
persistence failure of the create yields one error event to the sender,
an unchanged store, and no new-message event at all. -/
theorem c4_send_confirmed_fanout (db : DB) (c : Conn) (conns : List Conn)
    (content : String) (ty : Option String) (now : Nat) (tf : Bool) (ch : String)
    (hch : c.currentChannel = some ch) :
    (∃ m : Msg,
      (sendMessage db c content ty now false tf).2 =
        Out.newMessage (Room.channel ch) m ::
          (if tf then [Out.errorEv c.sockId "Failed to send message"] else []) ∧
      m ∈ (sendMessage db c content ty now false tf).1.messages ∧
      deliveredTo conns (Out.newMessage (Room.channel ch) m) =
        subscribers conns (Room.channel ch) ∧
      (c ∈ conns → Room.channel ch ∈ c.rooms →
        c.sockId ∈ subscribers conns (Room.channel ch))) ∧
    sendMessage db c content ty now true tf =
      (db, [Out.errorEv c.sockId "Failed to send message"]) := by
  constructor
  · refine ⟨{ id := db.nextMsgId, content := content, msgType := ty.getD "TEXT",
              userId := c.user.userId, channelId := ch, createdAt := now },
      ?_, ?_, rfl, ?_⟩
    · unfold sendMessage
      rw [hch]
      simp only [Bool.false_eq_true, if_false]
      cases tf
      · rfl
      · rfl
    · unfold sendMessage
      rw [hch]
      simp only [Bool.false_eq_true, if_false]
      cases tf
      · simp only [Bool.false_eq_true, if_false, touchChannelActivity]
        exact List.mem_append_right _ (List.mem_singleton_self _)
      · simp only [if_true]
        exact List.mem_append_right _ (List.mem_singleton_self _)
    · intro hmem hroom
      unfold subscribers
      exact List.mem_map.mpr
        ⟨c, List.mem_filter.mpr ⟨hmem, by simpa using hroom⟩, rfl⟩
  · unfold sendMessage
    rw [hch]
    rfl

/-- C4 witness: Alice in c1 sends to a registry holding herself, Bob in c1
and Bob in c3; the broadcast recipients are exactly sockets 1 and 2. -/
theorem c4_send_confirmed_fanout_witness :
    (∃ m : Msg,
      (sendMessage exDb connAliceInC1 "hello" none 40 false false).2 =
        Out.newMessage (Room.channel "c1") m ::
          (if false then [Out.errorEv 1 "Failed to send message"] else []) ∧
      m ∈ (sendMessage exDb connAliceInC1 "hello" none 40 false false).1.messages ∧
      deliveredTo [connAliceInC1, connBobInC1, connBobInC3]
          (Out.newMessage (Room.channel "c1") m) =
        subscribers [connAliceInC1, connBobInC1, connBobInC3] (Room.channel "c1") ∧
      (connAliceInC1 ∈ [connAliceInC1, connBobInC1, connBobInC3] →
        Room.channel "c1" ∈ connAliceInC1.rooms →
        (1 : Nat) ∈ subscribers [connAliceInC1, connBobInC1, connBobInC3]
          (Room.channel "c1"))) ∧
    subscribers [connAliceInC1, connBobInC1, connBobInC3] (Room.channel "c1") = [1, 2] :=
  ⟨((c4_send_confirmed_fanout exDb connAliceInC1
      [connAliceInC1, connBobInC1, connBobInC3] "hello" none 40 false "c1" rfl).1),
   by decide⟩

/-- The comparison used by the recent-messages query is transitive. -/
theorem newestFirst_trans (a b c : Msg) :
    (decide (b.createdAt ≤ a.createdAt)) = true →
    (decide (c.createdAt ≤ b.createdAt)) = true →
    (decide (c.createdAt ≤ a.createdAt)) = true := by
  simp only [decide_eq_true_eq]
  exact fun h1 h2 => Nat.le_trans h2 h1

/-- The comparison used by the recent-messages query is total. -/
theorem newestFirst_total (a b : Msg) :
    ((decide (b.createdAt ≤ a.createdAt)) || (decide (a.createdAt ≤ b.createdAt))) = true := by
  simp only [Bool.or_eq_true, decide_eq_true_eq]
  exact Nat.le_total b.createdAt a.createdAt

/-- C7: a successful join-channel replies with the recent page, which is
the reversal of the newest-first page of at most 50 rows the store
returned: oldest-first, of length `min 50` the channel total, drawn from
the channel, at least as recent as every channel message left off the
page, and comprising the whole channel oldest-first when the channel has
at most 50 messages. -/
theorem c7_recent_history (db : DB) (c : Conn) (cid : String)
    (hacc : hasChannelAccess db c.user.userId cid = true) :
    (joinChannel db c cid false false).2 =
      [Out.channelMessages c.sockId (listRecentMessages db cid).reverse,
       Out.userJoined (Room.channel cid) c.sockId c.user.userId (displayName c.user)] ∧
    (listRecentMessages db cid).reverse.length = min 50 (channelMsgs db cid).length ∧
    (listRecentMessages db cid).reverse.Pairwise (fun a b => a.createdAt ≤ b.createdAt) ∧
    (∀ m ∈ (listRecentMessages db cid).reverse, m ∈ channelMsgs db cid) ∧
    (∀ a ∈ (listRecentMessages db cid).reverse, ∀ b ∈ channelMsgs db cid,
      b ∉ (listRecentMessages db cid).reverse → b.createdAt ≤ a.createdAt) ∧
    ((channelMsgs db cid).length ≤ 50 →
      (listRecentMessages db cid).reverse.Perm (channelMsgs db cid)) := by
  have hsort := @List.sorted_mergeSort Msg (fun a b : Msg => b.createdAt ≤ a.createdAt)
    newestFirst_trans newestFirst_total (channelMsgs db cid)
  have hperm := List.mergeSort_perm (channelMsgs db cid)
    (fun a b : Msg => b.createdAt ≤ a.createdAt)
  refine ⟨?_, ?_, ?_, ?_, ?_, ?_⟩
  · unfold joinChannel
    rw [hacc]
    rfl
  · simp [listRecentMessages, List.length_take, List.length_mergeSort,
      channelMsgs]
  · have htake : ((channelMsgs db cid).mergeSort
        (fun a b : Msg => b.createdAt ≤ a.createdAt)).take 50
        |>.Pairwise (fun a b : Msg => decide (b.createdAt ≤ a.createdAt) = true) :=
      hsort.sublist (List.take_sublist _ _)
    rw [List.pairwise_reverse]
    exact htake.imp (fun h => by simpa using h)
  · intro m hm
    rw [List.mem_reverse] at hm
    exact hperm.subset (List.take_subset _ _ hm)
  · intro a ha b hb hbnot
    rw [List.mem_reverse] at ha
    rw [List.mem_reverse] at hbnot
    have hbs : b ∈ (channelMsgs db cid).mergeSort
        (fun a b : Msg => b.createdAt ≤ a.createdAt) := hperm.symm.subset hb
    rw [← List.take_append_drop 50 ((channelMsgs db cid).mergeSort
      (fun a b : Msg => b.createdAt ≤ a.createdAt))] at hbs
    rcases List.mem_append.mp hbs with hbt | hbd
    · exact absurd hbt hbnot
    · have hsplit : (((channelMsgs db cid).mergeSort
          (fun a b : Msg => b.createdAt ≤ a.createdAt)).take 50 ++
          ((channelMsgs db cid).mergeSort
          (fun a b : Msg => b.createdAt ≤ a.createdAt)).drop 50).Pairwise
          (fun a b : Msg => decide (b.createdAt ≤ a.createdAt) = true) := by
        rw [List.take_append_drop]
        exact hsort
      have := (List.pairwise_append.mp hsplit).2.2 a ha b hbd
      simpa using this
  · intro hlen
    have hfull : ((channelMsgs db cid).mergeSort
        (fun a b : Msg => b.createdAt ≤ a.createdAt)).take 50 =
        (channelMsgs db cid).mergeSort (fun a b : Msg => b.createdAt ≤ a.createdAt) := by
      apply List.take_of_length_le
      rw [List.length_mergeSort]
      exact hlen
    unfold listRecentMessages
    rw [hfull]
    exact (List.reverse_perm _).trans hperm

unseal List.merge List.mergeSort in
/-- C7 witness: Alice joins c1, whose two messages (created at 10 and 20)
come back oldest-first, and the page of a channel with fewer than 50
messages is the whole channel. -/
theorem c7_recent_history_witness :
    ((joinChannel exDb connAlice "c1" false false).2 =
      [Out.channelMessages 1 (listRecentMessages exDb "c1").reverse,
       Out.userJoined (Room.channel "c1") 1 "u1" (displayName suAlice)] ∧
      (List.map (fun m => m.createdAt) (listRecentMessages exDb "c1").reverse = [10, 20])) ∧
    ((listRecentMessages exDb "c1").reverse.Perm (channelMsgs exDb "c1")) :=
  ⟨⟨(c7_recent_history exDb connAlice "c1" (by decide)).1, by rfl⟩,
   (c7_recent_history exDb connAlice "c1" (by decide)).2.2.2.2.2 (by decide)⟩

/-- A successful find? splits its list at the found element, with no
earlier match. -/
theorem find?_decomp {α : Type} (p : α → Bool) (l : List α) (r : α)
    (h : l.find? p = some r) :
    ∃ l1 l2, l = l1 ++ r :: l2 ∧ ∀ x ∈ l1, p x = false := by
  induction l with
  | nil => simp at h
  | cons a t ih =>
    by_cases hpa : p a = true
    · rw [List.find?_cons_of_pos _ hpa] at h
      obtain rfl : a = r := by injection h
      exact ⟨[], t, rfl, by simp⟩
    · rw [List.find?_cons_of_neg _ (by simpa using hpa)] at h
      obtain ⟨l1, l2, hl, hfalse⟩ := ih h
      refine ⟨a :: l1, l2, by rw [hl, List.cons_append], ?_⟩
      intro x hx
      rcases List.mem_cons.mp hx with rfl | hx2
      · simpa using hpa
      · exact hfalse x hx2

/-- With pairwise-distinct row ids, deleting by the id of a row in the
middle removes exactly that row. -/
theorem filter_ne_id_decomp (l1 l2 : List Reaction) (r : Reaction)
    (hpw : (l1 ++ r :: l2).Pairwise (fun a b => a.id ≠ b.id)) :
    (l1 ++ r :: l2).filter (fun x => x.id ≠ r.id) = l1 ++ l2 := by
  have hcross := (List.pairwise_append.mp hpw).2.2
  have hr2 := (List.pairwise_cons.mp (List.pairwise_append.mp hpw).2.1).1
  have h1 : l1.filter (fun x => x.id ≠ r.id) = l1 := by
    rw [List.filter_eq_self]
    intro x hx
    simpa using hcross x hx r (List.mem_cons_self _ _)
  have h2 : l2.filter (fun x => x.id ≠ r.id) = l2 := by
    rw [List.filter_eq_self]
    intro y hy
    simpa using (hr2 y hy).symm
  rw [List.filter_append, List.filter_cons, h1, h2]
  simp

/-- The find predicate of the reaction lookup matches exactly the rows
keyed by the requested triple. -/
theorem reactionMatch_iff (x : Reaction) (u : String) (mid : Nat) (e : String) :
    ((x.userId == u && x.messageId == mid && x.emoji == e) = true) ↔
      reactionKey x = (u, mid, e) := by
  simp [reactionKey, Prod.ext_iff, Bool.and_eq_true, beq_iff_eq, and_assoc]

/-- Restricting to one message commutes with taking reaction keys. -/
theorem map_key_filter_mid (l : List Reaction) (mid : Nat) :
    (l.filter (fun x => x.messageId == mid)).map reactionKey =
      (l.map reactionKey).filter (fun k => k.2.1 == mid) := by
  induction l with
  | nil => rfl
  | cons a t ih =>
    simp only [List.filter_cons, List.map_cons]
    by_cases h : a.messageId = mid
    · simp [reactionKey, h, ih]
    · simp [reactionKey, h, ih]

/-- find? skips a matchless prefix. -/
theorem find?_append_none {α : Type} (p : α → Bool) (l l' : List α)
    (h : l.find? p = none) : (l ++ l').find? p = l'.find? p := by
  induction l with
  | nil => rfl
  | cons a t ih =>
    by_cases hpa : p a = true
    · rw [List.find?_cons_of_pos _ hpa] at h
      exact absurd h (by simp)
    · rw [List.find?_cons_of_neg _ (by simpa using hpa)] at h
      rw [List.cons_append, List.find?_cons_of_neg _ (by simpa using hpa)]
      exact ih h

/-- The toggle on a present row deletes by that row id. -/
theorem toggle_some_eq (db : DB) (u : String) (mid : Nat) (e : String) (r : Reaction)
    (hf : findReaction db u mid e = some r) :
    toggleReaction db u mid e =
      { db with reactions := db.reactions.filter (fun x => x.id ≠ r.id) } := by
  unfold toggleReaction
  rw [hf]

/-- The toggle on an absent row appends one fresh row and bumps the
counter. -/
theorem toggle_none_eq (db : DB) (u : String) (mid : Nat) (e : String)
    (hf : findReaction db u mid e = none) :
    toggleReaction db u mid e =
      { db with reactions := db.reactions ++ [freshReaction db u mid e],
                nextReactionId := db.nextReactionId + 1 } := by
  unfold toggleReaction
  rw [hf]
  rfl

/-- Splitting facts for a toggle that found its row: the store is the
found row between two remainders holding no row for the triple, and the
toggle removes exactly the found row. -/
theorem toggle_some_facts (db : DB) (u : String) (mid : Nat) (e : String) (r : Reaction)
    (hids : db.reactions.Pairwise (fun a b => a.id ≠ b.id))
    (hkeys : db.reactions.Pairwise (fun a b => reactionKey a ≠ reactionKey b))
    (hf : findReaction db u mid e = some r) :
    ∃ l1 l2, db.reactions = l1 ++ r :: l2 ∧
      (toggleReaction db u mid e).reactions = l1 ++ l2 ∧
      reactionKey r = (u, mid, e) ∧
      (∀ x ∈ l1, reactionKey x ≠ (u, mid, e)) ∧
      (∀ y ∈ l2, reactionKey y ≠ (u, mid, e)) := by
  have hf' : db.reactions.find?
      (fun x => x.userId == u && x.messageId == mid && x.emoji == e) = some r := hf
  obtain ⟨l1, l2, heq, hfalse⟩ := find?_decomp _ _ _ hf'
  have hPr := List.find?_some hf'
  have hkeyr : reactionKey r = (u, mid, e) :=
    (reactionMatch_iff r u mid e).mp (by simpa using hPr)
  have hl2keys : ∀ y ∈ l2, reactionKey y ≠ (u, mid, e) := by
    have hk := hkeys
    rw [heq] at hk
    have hcons := (List.pairwise_cons.mp (List.pairwise_append.mp hk).2.1).1
    intro y hy hcontra
    exact hcons y hy (hkeyr.trans hcontra.symm)
  refine ⟨l1, l2, heq, ?_, hkeyr, ?_, hl2keys⟩
  · rw [toggle_some_eq db u mid e r hf]
    show db.reactions.filter (fun x => x.id ≠ r.id) = l1 ++ l2
    rw [heq]
    apply filter_ne_id_decomp
    rw [heq] at hids
    exact hids
  · intro x hx hcontra
    have hT := (reactionMatch_iff x u mid e).mpr hcontra
    rw [hfalse x hx] at hT
    exact Bool.false_ne_true hT

/-- A double toggle from an absent row restores the reaction table
exactly. -/
theorem toggle_none_double (db : DB) (u : String) (mid : Nat) (e : String)
    (hbound : ∀ x ∈ db.reactions, x.id < db.nextReactionId)
    (hf : findReaction db u mid e = none) :
    (toggleReaction (toggleReaction db u mid e) u mid e).reactions = db.reactions := by
  have hf' : db.reactions.find?
      (fun x => x.userId == u && x.messageId == mid && x.emoji == e) = none := hf
  have hf2 : findReaction (toggleReaction db u mid e) u mid e =
      some (freshReaction db u mid e) := by
    show (toggleReaction db u mid e).reactions.find?
      (fun x => x.userId == u && x.messageId == mid && x.emoji == e) = _
    rw [toggle_none_eq db u mid e hf]
    show (db.reactions ++ [freshReaction db u mid e]).find? _ = _
    rw [find?_append_none _ _ _ hf']
    rw [List.find?_cons_of_pos]
    simp [freshReaction]
  rw [toggle_some_eq _ u mid e _ hf2]
  show (toggleReaction db u mid e).reactions.filter
      (fun x => x.id ≠ (freshReaction db u mid e).id) = db.reactions
  rw [toggle_none_eq db u mid e hf]
  show (db.reactions ++ [freshReaction db u mid e]).filter
      (fun x => x.id ≠ (freshReaction db u mid e).id) = db.reactions
  rw [List.filter_append]
  have ha : db.reactions.filter
      (fun x => x.id ≠ (freshReaction db u mid e).id) = db.reactions := by
    rw [List.filter_eq_self]
    intro x hx
    have := hbound x hx
    simp only [freshReaction, ne_eq, decide_eq_true_eq]
    omega
  have hb : ([freshReaction db u mid e]).filter
      (fun x => x.id ≠ (freshReaction db u mid e).id) = [] := by
    simp
  rw [ha, hb, List.append_nil]

/-- C2: the reaction toggle is strict and involutive.  With a well-formed
reaction table, a toggle that finds a row for (identity, message, emoji)
shrinks the table by exactly that row and leaves no row for the triple; a
toggle that finds none appends exactly one such row; well-formedness (in
particular, at most one row per triple) is preserved, so duplicates never
accumulate; and toggling twice with the same arguments restores the
reaction set of the message — literally, when the triple was absent, and
as a multiset of triples in general. -/
theorem c2_toggle_strict_involution (db : DB) (u : String) (mid : Nat) (e : String)
    (hinv : ReactInv db) :
    (∀ r, findReaction db u mid e = some r →
      (toggleReaction db u mid e).reactions.length + 1 = db.reactions.length ∧
      countTriple (toggleReaction db u mid e) u mid e = 0) ∧
    (findReaction db u mid e = none →
      (toggleReaction db u mid e).reactions.length = db.reactions.length + 1 ∧
      countTriple (toggleReaction db u mid e) u mid e = 1 ∧
      (toggleReaction (toggleReaction db u mid e) u mid e).reactions = db.reactions) ∧
    ReactInv (toggleReaction db u mid e) ∧
    (reactionKeysFor (toggleReaction (toggleReaction db u mid e) u mid e) mid).Perm
      (reactionKeysFor db mid) := by
  obtain ⟨hbound, hids, hkeys⟩ := hinv
  have hPfalse : findReaction db u mid e = none →
      ∀ x ∈ db.reactions, reactionKey x ≠ (u, mid, e) := by
    intro hf x hx hcontra
    have hf' : db.reactions.find?
        (fun x => x.userId == u && x.messageId == mid && x.emoji == e) = none := hf
    have := List.find?_eq_none.mp hf' x hx
    exact this ((reactionMatch_iff x u mid e).mpr hcontra)
  refine ⟨?_, ?_, ?_, ?_⟩
  · intro r hf
    obtain ⟨l1, l2, heq, htog, hkeyr, hl1, hl2⟩ :=
      toggle_some_facts db u mid e r hids hkeys hf
    constructor
    · rw [htog, heq]
      simp [List.length_append]
      omega
    · unfold countTriple
      rw [htog]
      have : (l1 ++ l2).filter (fun x => reactionKey x = (u, mid, e)) = [] := by
        rw [List.filter_eq_nil_iff]
        intro x hx
        rcases List.mem_append.mp hx with h1 | h2
        · simpa using hl1 x h1
        · simpa using hl2 x h2
      rw [this]
      rfl
  · intro hf
    refine ⟨?_, ?_, toggle_none_double db u mid e hbound hf⟩
    · rw [toggle_none_eq db u mid e hf]
      show (db.reactions ++ [freshReaction db u mid e]).length = db.reactions.length + 1
      simp
    · unfold countTriple
      rw [toggle_none_eq db u mid e hf]
      show ((db.reactions ++ [freshReaction db u mid e]).filter
        (fun x => reactionKey x = (u, mid, e))).length = 1
      rw [List.filter_append]
      have ha : db.reactions.filter (fun x => reactionKey x = (u, mid, e)) = [] := by
        rw [List.filter_eq_nil_iff]
        intro x hx
        simpa using hPfalse hf x hx
      have hb : ([freshReaction db u mid e]).filter
          (fun x => reactionKey x = (u, mid, e)) = [freshReaction db u mid e] := by
        simp [freshReaction, reactionKey]
      rw [ha, hb]
      rfl
  · cases hf : findReaction db u mid e with
    | some r =>
      obtain ⟨l1, l2, heq, htog, hkeyr, hl1, hl2⟩ :=
        toggle_some_facts db u mid e r hids hkeys hf
      have hsub : (toggleReaction db u mid e).reactions.Sublist db.reactions := by
        rw [htog, heq]
        exact (List.sublist_cons_self r l2).append_left l1
      refine ⟨?_, ?_, ?_⟩
      · intro x hx
        have hxdb : x ∈ db.reactions := hsub.mem hx
        show x.id < (toggleReaction db u mid e).nextReactionId
        rw [toggle_some_eq db u mid e r hf]
        exact hbound x hxdb
      · exact hids.sublist hsub
      · exact hkeys.sublist hsub
    | none =>
      rw [toggle_none_eq db u mid e hf]
      refine ⟨?_, ?_, ?_⟩
      · intro x hx
        show x.id < db.nextReactionId + 1
        rcases List.mem_append.mp hx with h1 | h2
        · exact Nat.lt_succ_of_lt (hbound x h1)
        · rw [List.mem_singleton.mp h2]
          exact Nat.lt_succ_self _
      · show (db.reactions ++ [freshReaction db u mid e]).Pairwise _
        rw [List.pairwise_append]
        refine ⟨hids, by simp, ?_⟩
        intro x hx y hy
        rw [List.mem_singleton.mp hy]
        exact Nat.ne_of_lt (hbound x hx)
      · show (db.reactions ++ [freshReaction db u mid e]).Pairwise _
        rw [List.pairwise_append]
        refine ⟨hkeys, by simp, ?_⟩
        intro x hx y hy
        rw [List.mem_singleton.mp hy]
        exact hPfalse hf x hx
  · cases hf : findReaction db u mid e with
    | none =>
      unfold reactionKeysFor listReactions
      rw [toggle_none_double db u mid e hbound hf]
    | some r =>
      obtain ⟨l1, l2, heq, htog, hkeyr, hl1, hl2⟩ :=
        toggle_some_facts db u mid e r hids hkeys hf
      have hf2 : findReaction (toggleReaction db u mid e) u mid e = none := by
        show (toggleReaction db u mid e).reactions.find?
          (fun x => x.userId == u && x.messageId == mid && x.emoji == e) = none
        rw [htog, List.find?_eq_none]
        intro x hx hP
        have hkx := (reactionMatch_iff x u mid e).mp hP
        rcases List.mem_append.mp hx with h1 | h2
        · exact hl1 x h1 hkx
        · exact hl2 x h2 hkx
      have hfinal : (toggleReaction (toggleReaction db u mid e) u mid e).reactions =
          (l1 ++ l2) ++ [freshReaction (toggleReaction db u mid e) u mid e] := by
        rw [toggle_none_eq _ u mid e hf2]
        show (toggleReaction db u mid e).reactions ++ _ = _
        rw [htog]
      have hkfresh : reactionKey (freshReaction (toggleReaction db u mid e) u mid e) =
          (u, mid, e) := rfl
      have hkmap : (((l1 ++ l2) ++
          [freshReaction (toggleReaction db u mid e) u mid e]).map reactionKey).Perm
          ((l1 ++ r :: l2).map reactionKey) := by
        simp only [List.map_append, List.map_cons, List.map_nil, List.append_assoc]
        refine List.Perm.append_left _ ?_
        have h1 : (l2.map reactionKey ++
            [reactionKey (freshReaction (toggleReaction db u mid e) u mid e)]).Perm
            (reactionKey (freshReaction (toggleReaction db u mid e) u mid e) ::
              l2.map reactionKey) := List.perm_append_singleton _ _
        rw [hkfresh] at h1
        rw [hkeyr]
        exact h1
      unfold reactionKeysFor listReactions
      rw [hfinal, map_key_filter_mid, map_key_filter_mid, heq]
      exact hkmap.filter _

/-- C2 witness: on a well-formed store where u1 has no reaction on message
1, the first toggle adds exactly one row for the triple, keeps the store
well-formed, and the second toggle restores the table. -/
theorem c2_toggle_strict_involution_witness :
    ReactInv exDbR ∧
    findReaction exDbR "u1" 1 "x" = none ∧
    (toggleReaction exDbR "u1" 1 "x").reactions.length = exDbR.reactions.length + 1 ∧
    countTriple (toggleReaction exDbR "u1" 1 "x") "u1" 1 "x" = 1 ∧
    (toggleReaction (toggleReaction exDbR "u1" 1 "x") "u1" 1 "x").reactions =
      exDbR.reactions ∧
    ReactInv (toggleReaction exDbR "u1" 1 "x") ∧
    (reactionKeysFor (toggleReaction (toggleReaction exDbR "u1" 1 "x") "u1" 1 "x") 1).Perm
      (reactionKeysFor exDbR 1) := by
  have h := c2_toggle_strict_involution exDbR "u1" 1 "x" (by decide)
  have h2 := h.2.1 (by decide)
  exact ⟨by decide, by decide, h2.1, h2.2.1, h2.2.2, h.2.2.1, h.2.2.2⟩

end Haunted
